import Mathlib

/-!
Shallow embedding of the availability-verification core of the call-center
activity checker (sources: `google_sheets.py`, `llm_corrector.py`).

Python strings are modelled as Lean `String`; the backing Google-Sheets
worksheets are modelled as explicit read-only state (`SheetsEnv`), with
`Option` marking an unreachable worksheet or a failed cell read; Python
`None`-able arguments are `Option`; Python truthiness of a string is
"nonempty".  RGB channels are rationals (the source compares decimal
literals channel-wise with a strict tolerance).
-/

set_option autoImplicit false
set_option linter.unusedVariables false

namespace CallCenter

/-- Python `needle.isPrefixOf hay` on character lists: does the second list
start with the first? -/
def strStarts : List Char → List Char → Bool
  | [], _ => true
  | _ :: _, [] => false
  | a :: as, b :: bs => a == b && strStarts as bs

/-- Auxiliary scan: does some suffix of the second list start with `needle`? -/
def strHasAux (needle : List Char) : List Char → Bool
  | [] => strStarts needle []
  | b :: bs => strStarts needle (b :: bs) || strHasAux needle bs

/-- Python substring containment `needle in hay`. -/
def strHas (hay needle : String) : Bool :=
  strHasAux needle.data hay.data

/-- Python `str.lower()` restricted to the alphabets the repository uses:
ASCII `A`-`Z` and Cyrillic `А`-`Я` (U+0410..U+042F) map down by 32 code
points, `Ё` (U+0401) maps to `ё` (U+0451); everything else is unchanged. -/
def lowerChar (c : Char) : Char :=
  if 65 ≤ c.toNat ∧ c.toNat ≤ 90 then Char.ofNat (c.toNat + 32)
  else if 1040 ≤ c.toNat ∧ c.toNat ≤ 1071 then Char.ofNat (c.toNat + 32)
  else if c.toNat = 1025 then Char.ofNat 1105
  else c

/-- Python `str.lower()` (see `lowerChar`). -/
def lowerStr (s : String) : String :=
  String.mk (s.data.map lowerChar)

/-- Whitespace characters removed by Python `str.strip()`. -/
def isSpaceChar (c : Char) : Bool :=
  c == ' ' || c == '\t' || c == '\n' || c == '\r'

/-- Python `str.strip()`: drop whitespace from both ends. -/
def stripStr (s : String) : String :=
  String.mk (((s.data.dropWhile isSpaceChar).reverse.dropWhile isSpaceChar).reverse)

/-- A roster entry from the sheet "Врачи" (`get_all_doctors` record). -/
structure Doctor where
  name : String
  specialty : String
deriving Repr, DecidableEq

/-- An RGB background color; channels are the 0..1 decimal values the
Sheets API reports (`userEnteredFormat.backgroundColor`). -/
structure Color where
  red : ℚ
  green : ℚ
  blue : ℚ
deriving Repr, DecidableEq

/-- Slot status as returned by `_get_cell_color_status` and the text
fallback in `check_doctor_availability`. -/
inductive Status where
  | free
  | busy
  | holiday
  | unknown
deriving Repr, DecidableEq

/-- `DoctorsSchedule.COLOR_GREEN` (свободно). -/
def COLOR_GREEN : Color := { red := 0.8509804, green := 0.91764706, blue := 0.827451 }

/-- `DoctorsSchedule.COLOR_RED` (занято). -/
def COLOR_RED : Color := { red := 0.95686275, green := 0.8, blue := 0.8 }

/-- `DoctorsSchedule.COLOR_BLUE` (выходной). -/
def COLOR_BLUE : Color := { red := 0.8, green := 0.87843137, blue := 0.95686275 }

/-- The default `threshold=0.1` of `color_similar`. -/
def COLOR_TOLERANCE : ℚ := 0.1

/-- `DoctorsSchedule.START_HOUR`. -/
def START_HOUR : Int := 9

/-- `DoctorsSchedule.END_HOUR`. -/
def END_HOUR : Int := 21

/-- `color_similar` from `_get_cell_color_status`: every channel differs by
strictly less than the threshold. -/
def color_similar (c1 c2 : Color) (threshold : ℚ) : Bool :=
  decide (|c1.red - c2.red| < threshold) &&
  decide (|c1.green - c2.green| < threshold) &&
  decide (|c1.blue - c2.blue| < threshold)

/-- `DoctorsSchedule._get_cell_color_status`: `none` models a missing /
empty color dict (Python falsy). -/
def get_cell_color_status : Option Color → Status
  | none => Status.unknown
  | some c =>
    if color_similar c COLOR_GREEN COLOR_TOLERANCE then Status.free
    else if color_similar c COLOR_RED COLOR_TOLERANCE then Status.busy
    else if color_similar c COLOR_BLUE COLOR_TOLERANCE then Status.holiday
    else Status.unknown

/-- A requested time slot. `raw` is the Python string; `parsedHour` models
`int(raw.split(":")[0])` — `none` models a parse failure (the `except`
branch of `_get_time_row_index`). -/
structure TimeSlot where
  raw : String
  parsedHour : Option Int
deriving Repr, DecidableEq

/-- `DoctorsSchedule._get_time_row_index`: row 1 is headers, row 2 is
`START_HOUR`; hours outside the range give `none`. -/
def get_time_row_index (ts : TimeSlot) : Option Int :=
  match ts.parsedHour with
  | none => none
  | some hour =>
    if hour < START_HOUR ∨ hour > END_HOUR then none
    else some ((hour - START_HOUR) + 2)

/-- A schedule cell as read through the API: `value` is the cell text
(Python `None` and `""` are both modelled as `""`, observationally equal
here), `color` is the background color when one was obtained (`none`
models API failure, a missing `backgroundColor`, or an empty color dict —
all Python-falsy). -/
structure CellData where
  value : String
  color : Option Color
deriving Repr, DecidableEq

/-- The "Расписание" worksheet: row 1 is `headerRow` (column 1 the time
axis, doctors from column 2); `cells row col` is a 1-based cell read,
`none` modelling the exception branch of the read. -/
structure Grid where
  headerRow : List String
  cells : Int → Int → Option CellData

/-- The backing Google-Sheets state of a `DoctorsSchedule` object:
`none` for a worksheet models `doctors_worksheet` / `schedule_worksheet`
being `None` (sheet not found or connection failed). -/
structure SheetsEnv where
  doctorsWorksheet : Option (List Doctor)
  scheduleWorksheet : Option Grid

/-- Python truthiness of an optional string argument. -/
def optTruthy : Option String → Bool
  | some s => s ≠ ""
  | none => false

/-- Python truthiness of the `time_slot` argument. -/
def timeTruthy : Option TimeSlot → Bool
  | some ts => ts.raw ≠ ""
  | none => false

/-- `DoctorsSchedule.get_all_doctors`: empty names are dropped; an
unreachable worksheet (or a failed read) gives `[]`. -/
def get_all_doctors (env : SheetsEnv) : List Doctor :=
  match env.doctorsWorksheet with
  | none => []
  | some records => records.filter (fun d => d.name ≠ "")

/-- `DoctorsSchedule.find_doctor_by_name`: case-insensitive bidirectional
substring containment against the stripped, lowered query. -/
def find_doctor_by_name (env : SheetsEnv) (doctor_name : String) : List Doctor :=
  let doctors := get_all_doctors env
  let ql := stripStr (lowerStr doctor_name)
  doctors.filter (fun d =>
    let nl := lowerStr d.name
    strHas nl ql || strHas ql nl)

/-- `DoctorsSchedule.find_doctors_by_specialty`: same containment test on
the specialty field. -/
def find_doctors_by_specialty (env : SheetsEnv) (specialty : String) : List Doctor :=
  let doctors := get_all_doctors env
  let sl := stripStr (lowerStr specialty)
  doctors.filter (fun d =>
    let dl := lowerStr d.specialty
    strHas dl sl || strHas sl dl)

/-- The inner directory cross-check of `_get_doctor_column_index`: the
header matches a directory doctor bidirectionally, case-insensitively. -/
def headerMatchesDirectoryDoctor (header : String) (d : Doctor) : Bool :=
  strHas (lowerStr header) (lowerStr d.name) || strHas (lowerStr d.name) (lowerStr header)

/-- The scan condition of `_get_doctor_column_index` line 267: the header
cell is truthy and contains the lowered query. -/
def headerHit (header ql : String) : Bool :=
  header ≠ "" && strHas (lowerStr header) ql

/-- The header scan loop of `_get_doctor_column_index`: walk the headers
from column 2; at the first nonempty header containing the query, run the
directory cross-check (every branch of which returns that same column). -/
def columnScan (env : SheetsEnv) (doctor_name ql : String) : List String → Int → Option Int
  | [], _ => none
  | header :: rest, col =>
    if headerHit header ql then
      let found := find_doctor_by_name env doctor_name
      if found.isEmpty then some col
      else
        match found.find? (fun d => headerMatchesDirectoryDoctor header d) with
        | some _ => some col
        | none => some col
    else columnScan env doctor_name ql rest (col + 1)

/-- The scan `_get_doctor_column_index` actually implements, written
without the (dead) directory cross-check: first header hit wins. -/
def simpleColumnScan (ql : String) : List String → Int → Option Int
  | [], _ => none
  | header :: rest, col =>
    if headerHit header ql then some col
    else simpleColumnScan ql rest (col + 1)

/-- `DoctorsSchedule._get_doctor_column_index`. -/
def get_doctor_column_index (env : SheetsEnv) (doctor_name : String) : Option Int :=
  match env.scheduleWorksheet with
  | none => none
  | some grid =>
    let ql := stripStr (lowerStr doctor_name)
    columnScan env doctor_name ql (grid.headerRow.drop 1) 2

/-- The text fallback of `check_doctor_availability` (lines 404-412):
decode the cell value against the fixed vocabulary. -/
def textStatus (v : String) : Status :=
  let lv := lowerStr v
  if v = "" ∨ lv = "свободно" ∨ lv = "free" ∨ lv = "" then Status.free
  else if lv = "занято" ∨ lv = "busy" ∨ lv = "занят" then Status.busy
  else if lv = "выходной" ∨ lv = "holiday" ∨ lv = "вых" then Status.holiday
  else Status.unknown

/-- Status of a cell (lines 400-412): a truthy color wins, otherwise the
text fallback. -/
def cellStatus (cell : CellData) : Status :=
  match cell.color with
  | some c => get_cell_color_status (some c)
  | none => textStatus cell.value

/-- The status-dependent message templates of `check_doctor_availability`
(lines 422-429). -/
def statusMessage (status : Status) (name timeDisplay : String) : String :=
  match status with
  | Status.free => "✅ Врач " ++ name ++ " свободен в " ++ timeDisplay
  | Status.busy => "❌ Врач " ++ name ++ " занят в " ++ timeDisplay
  | Status.holiday => "🚫 Врач " ++ name ++ " в выходной в " ++ timeDisplay
  | Status.unknown => "⚠️ Статус врача " ++ name ++ " в " ++ timeDisplay ++ " не определен"

/-- The result dict of `check_doctor_availability` (all five keys are
always present in the source). -/
structure CheckResult where
  doctor_exists : Bool
  specialty_matches : Bool
  available_at_time : Bool
  doctor_info : Option Doctor
  message : String
deriving Repr, DecidableEq

/-- The time phase of `check_doctor_availability` (lines 338-436): runs
after the doctor is found and the specialty check passed; `r` is the
result accumulated so far. -/
def availabilityTimePhase (env : SheetsEnv) (doctor : Doctor) (time_slot : Option TimeSlot)
    (r : CheckResult) : CheckResult :=
  if timeTruthy time_slot then
    match time_slot, env.scheduleWorksheet with
    | some ts, some grid =>
      match get_time_row_index ts with
      | none =>
        { r with message := "Время \x27" ++ ts.raw ++ "\x27 вне диапазона расписания (9:00-21:00)",
                 doctor_info := some doctor }
      | some rowIndex =>
        match get_doctor_column_index env doctor.name with
        | none =>
          { r with message := "Врач " ++ doctor.name ++ " не найден в расписании",
                   doctor_info := some doctor }
        | some colIndex =>
          match grid.cells rowIndex colIndex with
          | none =>
            { r with message := "Ошибка проверки расписания врача " ++ doctor.name,
                     doctor_info := some doctor }
          | some cell =>
            let status := cellStatus cell
            let timeDisplay := if ts.raw.data.contains ':' then ts.raw else ts.raw ++ ":00"
            { r with available_at_time := (match status with | Status.free => true | _ => false),
                     message := statusMessage status doctor.name timeDisplay,
                     doctor_info := some doctor }
    | _, _ =>
      { r with available_at_time := true,
               message := "Врач " ++ doctor.name ++ " найден: " ++ doctor.specialty,
               doctor_info := some doctor }
  else
    { r with available_at_time := true,
             message := "Врач " ++ doctor.name ++ " найден: " ++ doctor.specialty,
             doctor_info := some doctor }

/-- `DoctorsSchedule.check_doctor_availability`. -/
def check_doctor_availability (env : SheetsEnv) (doctor_name : String)
    (specialty day : Option String) (time_slot : Option TimeSlot) : CheckResult :=
  match find_doctor_by_name env doctor_name with
  | [] =>
    { doctor_exists := false, specialty_matches := true, available_at_time := false,
      doctor_info := none,
      message := "Врач \x27" ++ doctor_name ++ "\x27 не найден в справочнике" }
  | doctor :: rest =>
    let base : CheckResult :=
      { doctor_exists := true, specialty_matches := true, available_at_time := false,
        doctor_info := none,
        message := if rest = [] then ""
          else "Найдено несколько врачей с именем \x27" ++ doctor_name ++
               "\x27. Используется: " ++ doctor.name }
    match specialty with
    | some s =>
      if s ≠ "" then
        let sm := strHas (lowerStr doctor.specialty) (lowerStr s)
        let r1 := { base with specialty_matches := sm }
        if sm then availabilityTimePhase env doctor time_slot r1
        else
          { r1 with
            doctor_info := some doctor,
            message := "Врач " ++ doctor.name ++ " найден, но его специальность \x27" ++
              doctor.specialty ++ "\x27 не соответствует запрошенной \x27" ++ s ++ "\x27" }
      else availabilityTimePhase env doctor time_slot base
    | none => availabilityTimePhase env doctor time_slot base

/-- How Python renders an optional string inside an f-string (`None` prints
as `"None"`). -/
def pyOptRepr : Option String → String
  | none => "None"
  | some s => s

/-- The doctor list used by `get_context_for_rag` after applying the
`doctor_name` / `specialty` filters (lines 456-461). -/
def ragFilteredDoctors (env : SheetsEnv) (doctor_name specialty : Option String) : List Doctor :=
  if optTruthy doctor_name then find_doctor_by_name env (doctor_name.getD "")
  else if optTruthy specialty then find_doctors_by_specialty env (specialty.getD "")
  else get_all_doctors env

/-- The listing accumulation loop of `get_context_for_rag` (lines 466-468). -/
def ragListing (ds : List Doctor) : String :=
  ds.foldl (fun acc d => acc ++ "- " ++ d.name ++ ", " ++ d.specialty ++ "\n")
    "Информация о врачах из базы данных:\n\n"

/-- `DoctorsSchedule.get_context_for_rag`. -/
def get_context_for_rag (env : SheetsEnv) (doctor_name specialty : Option String) : String :=
  match env.doctorsWorksheet with
  | none => "База данных врачей недоступна"
  | some _ =>
    let doctors := ragFilteredDoctors env doctor_name specialty
    if doctors = [] then
      "Врачи не найдены (фильтр: имя=\x27" ++ pyOptRepr doctor_name ++
        "\x27, специальность=\x27" ++ pyOptRepr specialty ++ "\x27)"
    else
      ragListing (doctors.take 10) ++ "\n"

/-- The appointment info handed to `_verify_doctor_availability` (the
fields it reads; all Python strings, read with `.get(..., "")`). -/
structure AppointmentInfo where
  doctor_name : String
  doctor_specialty : String
  appointment_date : String
  appointment_time : TimeSlot
deriving Repr, DecidableEq

/-- The `llm_clarification` value: either the JSON parsed from the
clarifier response, or — on a `JSONDecodeError` — the wrapper
`{"recommendation": raw}` built at line 462 of `llm_corrector.py`. The
parsed payload is kept opaque as its source string. -/
inductive Clarification where
  | parsed (payload : String)
  | recommendationOnly (raw : String)
deriving Repr, DecidableEq

/-- The dict returned by `_verify_doctor_availability`. `none` in an
`Option` field models the key being absent from the returned dict (the two
short-circuit returns carry only `verified`, `message`, `doctor_info`). -/
structure Verdict where
  verified : Bool
  doctor_exists : Option Bool
  specialty_matches : Option Bool
  available_at_time : Option Bool
  message : String
  doctor_info : Option Doctor
  doctors_context : Option String
  llm_clarification : Option Clarification
deriving Repr, DecidableEq

/-- The state of an `LLMCorrector` as `_verify_doctor_availability` sees
it: the backing schedule (`none` = `self.doctors_schedule` is `None`),
whether an LLM is configured, the clarifier response for this call
(`none` = `_call_llm` returned `None`; the prompt does not influence
anything else, so the response is modelled as an oracle value), and the
JSON decoding oracle (`none` = `json.loads` raises after fence
stripping). -/
structure VerifierEnv where
  doctorsSchedule : Option SheetsEnv
  llm : Bool
  clarResponse : Option String
  parseClar : String → Option String

/-- The deterministic main path of `_verify_doctor_availability` (lines
396-423): RAG context, availability check, `verified` aggregation; the
`llm_clarification` key is not yet set. -/
def verdictCore (env : SheetsEnv) (appt : AppointmentInfo) : Verdict :=
  let doctor_name := stripStr appt.doctor_name
  let specialty := stripStr appt.doctor_specialty
  let appointment_date := stripStr appt.appointment_date
  let tsRaw := stripStr appt.appointment_time.raw
  let doctors_context := get_context_for_rag env (some doctor_name)
    (if specialty ≠ "" then some specialty else none)
  let vr := check_doctor_availability env doctor_name
    (if specialty ≠ "" then some specialty else none)
    (if appointment_date ≠ "" then some appointment_date else none)
    (if tsRaw ≠ "" then
      some { raw := tsRaw, parsedHour := appt.appointment_time.parsedHour } else none)
  let verified := vr.doctor_exists && vr.specialty_matches && vr.available_at_time
  { verified := verified, doctor_exists := some vr.doctor_exists,
    specialty_matches := some vr.specialty_matches,
    available_at_time := some vr.available_at_time,
    message := vr.message, doctor_info := vr.doctor_info,
    doctors_context := some doctors_context, llm_clarification := none }

/-- The clarifier step of `_verify_doctor_availability` (lines 426-463):
invoked when not verified and an LLM is configured; a falsy response
leaves the result untouched, a parse failure stores the raw text under
`recommendation`. -/
def attachClarification (venv : VerifierEnv) (result : Verdict) : Verdict :=
  if !result.verified && venv.llm then
    match venv.clarResponse with
    | some clar =>
      if clar ≠ "" then
        match venv.parseClar clar with
        | some payload =>
          { result with llm_clarification := some (Clarification.parsed payload) }
        | none =>
          { result with llm_clarification := some (Clarification.recommendationOnly clar) }
      else result
    | none => result
  else result

/-- `LLMCorrector._verify_doctor_availability`. -/
def verify_doctor_availability (venv : VerifierEnv) (appt : AppointmentInfo) : Verdict :=
  match venv.doctorsSchedule with
  | none =>
    { verified := false, doctor_exists := none, specialty_matches := none,
      available_at_time := none, message := "База данных врачей недоступна",
      doctor_info := none, doctors_context := none, llm_clarification := none }
  | some env =>
    if stripStr appt.doctor_name = "" then
      { verified := false, doctor_exists := none, specialty_matches := none,
        available_at_time := none, message := "Имя врача не указано в звонке",
        doctor_info := none, doctors_context := none, llm_clarification := none }
    else attachClarification venv (verdictCore env appt)

/-! Concrete fixtures for witnesses and counterexamples. -/

/-- A one-doctor roster with a reachable schedule grid whose cells all
fail to read. -/
def exSheets : SheetsEnv :=
  { doctorsWorksheet := some [{ name := "Иванов Иван", specialty := "Терапевт" }],
    scheduleWorksheet := some { headerRow := ["время", "Иванов Иван"], cells := fun _ _ => none } }

/-- A one-doctor roster whose schedule grid is unreachable. -/
def exSheetsNoGrid : SheetsEnv :=
  { doctorsWorksheet := some [{ name := "Иванов Иван", specialty := "Терапевт" }],
    scheduleWorksheet := none }

/-- A wholly unreachable backing store. -/
def exSheetsNoRoster : SheetsEnv :=
  { doctorsWorksheet := none, scheduleWorksheet := none }

/-- Fixture for the C7 counterexample: the directory holds two matches
for "Иванов" ("Иванов Иван" and "Иванов Петр"); the header row puts the
bare-substring hit "Иванова Анна Петровна" (corresponding to neither
directory match) in column 2 and the directory doctor "Иванов Иван" in
column 3. -/
def exSheetsC7 : SheetsEnv :=
  { doctorsWorksheet := some
      [{ name := "Иванов Иван", specialty := "Терапевт" },
       { name := "Иванов Петр", specialty := "Хирург" }],
    scheduleWorksheet := some
      { headerRow := ["время", "Иванова Анна Петровна", "Иванов Иван"],
        cells := fun _ _ => none } }

/-- Fixture for the containment-direction part of the C7 counterexample:
the only doctor header, "Иванов Иван", is contained in the longer query
"Иванов Иван Иванович" but does not contain it. -/
def exSheetsC7b : SheetsEnv :=
  { doctorsWorksheet := some [{ name := "Иванов Иван", specialty := "Терапевт" }],
    scheduleWorksheet := some
      { headerRow := ["время", "Иванов Иван"],
        cells := fun _ _ => none } }

/-- An 11-doctor roster for the C9 counterexample. -/
def exSheetsEleven : SheetsEnv :=
  { doctorsWorksheet := some
      [{ name := "Doc01", specialty := "S" }, { name := "Doc02", specialty := "S" },
       { name := "Doc03", specialty := "S" }, { name := "Doc04", specialty := "S" },
       { name := "Doc05", specialty := "S" }, { name := "Doc06", specialty := "S" },
       { name := "Doc07", specialty := "S" }, { name := "Doc08", specialty := "S" },
       { name := "Doc09", specialty := "S" }, { name := "Doc10", specialty := "S" },
       { name := "Doc11", specialty := "S" }],
    scheduleWorksheet := none }

/-- An appointment request with an empty doctor name. -/
def exApptEmptyName : AppointmentInfo :=
  { doctor_name := "", doctor_specialty := "", appointment_date := "",
    appointment_time := { raw := "", parsedHour := none } }

/-- A request for a doctor that is absent from the fixture roster. -/
def exApptSidorov : AppointmentInfo :=
  { doctor_name := "Сидоров", doctor_specialty := "", appointment_date := "",
    appointment_time := { raw := "", parsedHour := none } }

/-- A plain request for the fixture doctor without constraints. -/
def exApptIvanov : AppointmentInfo :=
  { doctor_name := "Иванов", doctor_specialty := "", appointment_date := "",
    appointment_time := { raw := "", parsedHour := none } }

/-- A verifier state with a working backing store and no LLM. -/
def exVerifierNoLlm : VerifierEnv :=
  { doctorsSchedule := some exSheets, llm := false, clarResponse := none,
    parseClar := fun _ => none }

/-- A verifier state whose clarifier answers with unparseable output. -/
def exVerifierBadClar : VerifierEnv :=
  { doctorsSchedule := some exSheets, llm := true, clarResponse := some "мусор",
    parseClar := fun _ => none }

/-! Helper lemmas. -/

theorem strHas_empty_needle (s : String) : strHas s "" = true := by
  cases h : s.data <;> simp [strHas, strHasAux, strStarts, h]

theorem lowerStr_eq_empty_iff (v : String) : lowerStr v = "" ↔ v = "" := by
  cases v with
  | mk data =>
    constructor
    · intro h
      have hd : data.map lowerChar = [] := congrArg String.data h
      simp only [List.map_eq_nil_iff] at hd
      simp [hd]
    · intro h
      have hd : data = [] := by simpa using congrArg String.data h
      simp [lowerStr, hd]

theorem availabilityTimePhase_preserves (env : SheetsEnv) (d : Doctor)
    (ts : Option TimeSlot) (r : CheckResult) :
    (availabilityTimePhase env d ts r).doctor_exists = r.doctor_exists ∧
    (availabilityTimePhase env d ts r).specialty_matches = r.specialty_matches := by
  unfold availabilityTimePhase
  repeat' split
  all_goals exact ⟨rfl, rfl⟩

theorem availabilityTimePhase_doctor_exists (env : SheetsEnv) (d : Doctor)
    (ts : Option TimeSlot) (r : CheckResult) :
    (availabilityTimePhase env d ts r).doctor_exists = r.doctor_exists :=
  (availabilityTimePhase_preserves env d ts r).1

theorem availabilityTimePhase_specialty (env : SheetsEnv) (d : Doctor)
    (ts : Option TimeSlot) (r : CheckResult) :
    (availabilityTimePhase env d ts r).specialty_matches = r.specialty_matches :=
  (availabilityTimePhase_preserves env d ts r).2

theorem availabilityTimePhase_no_time (env : SheetsEnv) (d : Doctor)
    (ts : Option TimeSlot) (r : CheckResult) (h : timeTruthy ts = false) :
    availabilityTimePhase env d ts r =
      { r with available_at_time := true,
               message := "Врач " ++ d.name ++ " найден: " ++ d.specialty,
               doctor_info := some d } := by
  unfold availabilityTimePhase
  simp [h]

theorem columnScan_eq_simple (env : SheetsEnv) (q ql : String)
    (l : List String) (col : Int) :
    columnScan env q ql l col = simpleColumnScan ql l col := by
  induction l generalizing col with
  | nil => rfl
  | cons header rest ih =>
    unfold columnScan simpleColumnScan
    cases hh : headerHit header ql with
    | true =>
      simp only [hh, if_true]
      split
      · rfl
      · split <;> rfl
    | false =>
      simp only [hh, if_false]
      exact ih (col + 1)

theorem attachClarification_frame (venv : VerifierEnv) (r : Verdict) :
    (attachClarification venv r).verified = r.verified ∧
    (attachClarification venv r).doctor_exists = r.doctor_exists ∧
    (attachClarification venv r).specialty_matches = r.specialty_matches ∧
    (attachClarification venv r).available_at_time = r.available_at_time ∧
    (attachClarification venv r).message = r.message ∧
    (attachClarification venv r).doctor_info = r.doctor_info ∧
    (attachClarification venv r).doctors_context = r.doctors_context := by
  unfold attachClarification
  repeat' split
  all_goals exact ⟨rfl, rfl, rfl, rfl, rfl, rfl, rfl⟩

theorem strStarts_append (p t : List Char) : strStarts p (p ++ t) = true := by
  induction p with
  | nil => rfl
  | cons a as ih => simp [strStarts, ih]

theorem strStarts_of_data_append (p s : String) (t : List Char)
    (h : s.data = p.data ++ t) : strStarts p.data s.data = true := by
  rw [h]
  exact strStarts_append p.data t

theorem ragListing_data (ds : List Doctor) (init : String) :
    ∃ t, (ds.foldl (fun acc d => acc ++ "- " ++ d.name ++ ", " ++ d.specialty ++ "\n") init).data
      = init.data ++ t := by
  induction ds generalizing init with
  | nil => exact ⟨[], by simp⟩
  | cons d tail ih =>
    obtain ⟨t, ht⟩ := ih (init ++ "- " ++ d.name ++ ", " ++ d.specialty ++ "\n")
    refine ⟨("- " ++ d.name ++ ", " ++ d.specialty ++ "\n").data ++ t, ?_⟩
    rw [List.foldl_cons, ht]
    simp [String.data_append]

/-! Claim theorems. -/

/-- C3: evaluation of the code at the failing input. With the schedule
grid unreachable but a time slot requested, `check_doctor_availability`
falls into the `else` branch of line 338 and defaults
`available_at_time` to `true` (line 435) — an infrastructure fault
producing a positive signal, contradicting the claim. Moreover a wholly
unreachable roster produces a verdict identical to a legitimate
"doctor not found" against an empty roster, so the infrastructure fault
does not surface distinctly. -/
theorem c3_backing_store_unavailable_defaults_positive :
    (check_doctor_availability exSheetsNoGrid "Иванов" none none
        (some { raw := "14", parsedHour := some 14 })).available_at_time = true ∧
    check_doctor_availability exSheetsNoRoster "Иванов" none none none =
      check_doctor_availability
        { doctorsWorksheet := some [], scheduleWorksheet := none } "Иванов" none none none :=
  ⟨rfl, rfl⟩

/-- C4: a color is classified as a reference status iff every RGB channel
differs from that reference by strictly less than the 0.1 tolerance; a
channel exactly at the boundary does not match; references are checked in
order free → busy → holiday with first match winning, and `unknown` is
returned when no reference matches. -/
theorem c4_color_classification (c r : Color) :
    (color_similar c r COLOR_TOLERANCE = true ↔
      (|c.red - r.red| < (1/10 : ℚ) ∧ |c.green - r.green| < (1/10 : ℚ) ∧
       |c.blue - r.blue| < (1/10 : ℚ))) ∧
    (|c.red - r.red| = (1/10 : ℚ) → color_similar c r COLOR_TOLERANCE = false) ∧
    (get_cell_color_status (some c) = Status.free ↔
      color_similar c COLOR_GREEN COLOR_TOLERANCE = true) ∧
    (get_cell_color_status (some c) = Status.busy ↔
      (color_similar c COLOR_GREEN COLOR_TOLERANCE = false ∧
       color_similar c COLOR_RED COLOR_TOLERANCE = true)) ∧
    (get_cell_color_status (some c) = Status.holiday ↔
      (color_similar c COLOR_GREEN COLOR_TOLERANCE = false ∧
       color_similar c COLOR_RED COLOR_TOLERANCE = false ∧
       color_similar c COLOR_BLUE COLOR_TOLERANCE = true)) ∧
    (get_cell_color_status (some c) = Status.unknown ↔
      (color_similar c COLOR_GREEN COLOR_TOLERANCE = false ∧
       color_similar c COLOR_RED COLOR_TOLERANCE = false ∧
       color_similar c COLOR_BLUE COLOR_TOLERANCE = false)) := by
  have htol : COLOR_TOLERANCE = (1/10 : ℚ) := by norm_num [COLOR_TOLERANCE]
  have h1 : color_similar c r COLOR_TOLERANCE = true ↔
      (|c.red - r.red| < (1/10 : ℚ) ∧ |c.green - r.green| < (1/10 : ℚ) ∧
       |c.blue - r.blue| < (1/10 : ℚ)) := by
    simp [color_similar, htol, and_assoc]
  refine ⟨h1, ?_, ?_⟩
  · intro hb
    cases hc : color_similar c r COLOR_TOLERANCE with
    | false => rfl
    | true =>
      have := (h1.mp hc).1
      rw [hb] at this
      exact absurd this (lt_irrefl _)
  · unfold get_cell_color_status
    cases hg : color_similar c COLOR_GREEN COLOR_TOLERANCE <;>
      cases hr : color_similar c COLOR_RED COLOR_TOLERANCE <;>
        cases hb : color_similar c COLOR_BLUE COLOR_TOLERANCE <;>
          simp [hg, hr, hb]

/-- C4 witness: the boundary input `(1/10, 0, 0)` against `(0, 0, 0)` is
exactly at the tolerance on the red channel and does not match. -/
theorem c4_witness :
    color_similar { red := 1/10, green := 0, blue := 0 }
      { red := 0, green := 0, blue := 0 } COLOR_TOLERANCE = false :=
  (c4_color_classification { red := 1/10, green := 0, blue := 0 }
    { red := 0, green := 0, blue := 0 }).2.1 (by norm_num)

/-- C5: for every hour outside `[START_HOUR, END_HOUR] = [9, 21]` the row
lookup yields `none` — and `check_doctor_availability` then returns the
distinguishable "time out of range" message without consulting any slot
status; for every hour inside the range the resolved row is
`(hour − START_HOUR) + 2`, which is at least 2, row 1 being headers. -/
theorem c5_time_row_bounds (raw : String) (h : Int) :
    ((get_time_row_index { raw := raw, parsedHour := some h } = none) ↔
      (h < START_HOUR ∨ END_HOUR < h)) ∧
    (START_HOUR ≤ h → h ≤ END_HOUR →
      get_time_row_index { raw := raw, parsedHour := some h } =
        some ((h - START_HOUR) + 2) ∧ 2 ≤ (h - START_HOUR) + 2) ∧
    (∀ (env : SheetsEnv) (name : String) (day : Option String) (d : Doctor)
        (tl : List Doctor),
      (h < START_HOUR ∨ END_HOUR < h) → raw ≠ "" →
      find_doctor_by_name env name = d :: tl → env.scheduleWorksheet.isSome = true →
      check_doctor_availability env name none day
          (some { raw := raw, parsedHour := some h }) =
        { doctor_exists := true, specialty_matches := true, available_at_time := false,
          doctor_info := some d,
          message := "Время \x27" ++ raw ++ "\x27 вне диапазона расписания (9:00-21:00)" }) := by
  refine ⟨?_, ?_, ?_⟩
  · unfold get_time_row_index
    simp only [gt_iff_lt]
    split
    · simp only [true_iff]
      next hc => exact hc.imp id id
    · simp only [reduceCtorEq, false_iff]
      next hc => exact hc
  · intro h1 h2
    simp only [get_time_row_index]
    rw [if_neg (by simp only [START_HOUR, END_HOUR] at h1 h2 ⊢; omega)]
    exact ⟨rfl, by simp only [START_HOUR] at h1 ⊢; omega⟩
  · intro env name day d tl hout hraw hfind hgrid
    have hnone : get_time_row_index { raw := raw, parsedHour := some h } = none := by
      simp only [get_time_row_index]
      exact if_pos hout
    have htt : timeTruthy (some { raw := raw, parsedHour := some h }) = true := by
      simp [timeTruthy, hraw]
    obtain ⟨grid, hg⟩ := Option.isSome_iff_exists.mp hgrid
    unfold check_doctor_availability
    rw [hfind]
    unfold availabilityTimePhase
    rw [hg, htt]
    simp [hnone]

/-- C5 witness: hour 14 resolves to row 7; hour 8 (below `START_HOUR`)
yields the out-of-range message for the fixture roster. -/
theorem c5_witness :
    get_time_row_index { raw := "14", parsedHour := some 14 } = some 7 ∧
    (check_doctor_availability exSheets "Иванов" none none
        (some { raw := "8", parsedHour := some 8 })).message =
      "Время \x278\x27 вне диапазона расписания (9:00-21:00)" := by
  constructor
  · exact (((c5_time_row_bounds "14" 14).2.1 (by decide) (by decide)).1).trans (by decide)
  · have h := (c5_time_row_bounds "8" 8).2.2 exSheets "Иванов" none
      { name := "Иванов Иван", specialty := "Терапевт" } []
      (Or.inl (by decide)) (by decide) (by decide) rfl
    rw [h]
    rfl

/-- C6: when a background color is obtainable the slot status is derived
from the color alone — the cell text is ignored, even when the two
disagree — and only when no color is obtainable is the text decoded
against the fixed vocabulary (empty / "свободно" / "free" → free,
"занято" / "busy" / "занят" → busy, "выходной" / "holiday" / "вых" →
holiday, anything else unknown), case-insensitively. -/
theorem c6_color_over_text (c : Color) (v w : String) :
    (cellStatus { value := v, color := some c } = get_cell_color_status (some c)) ∧
    (cellStatus { value := v, color := some c } = cellStatus { value := w, color := some c }) ∧
    (cellStatus { value := v, color := none } = Status.free ↔
      (v = "" ∨ lowerStr v = "свободно" ∨ lowerStr v = "free")) ∧
    (cellStatus { value := v, color := none } = Status.busy ↔
      (lowerStr v = "занято" ∨ lowerStr v = "busy" ∨ lowerStr v = "занят")) ∧
    (cellStatus { value := v, color := none } = Status.holiday ↔
      (lowerStr v = "выходной" ∨ lowerStr v = "holiday" ∨ lowerStr v = "вых")) ∧
    (cellStatus { value := v, color := none } = Status.unknown ↔
      (¬ (v = "" ∨ lowerStr v = "свободно" ∨ lowerStr v = "free") ∧
       ¬ (lowerStr v = "занято" ∨ lowerStr v = "busy" ∨ lowerStr v = "занят") ∧
       ¬ (lowerStr v = "выходной" ∨ lowerStr v = "holiday" ∨ lowerStr v = "вых"))) := by
  have hempty : v = "" ↔ lowerStr v = "" := (lowerStr_eq_empty_iff v).symm
  refine ⟨rfl, rfl, ?_, ?_, ?_, ?_⟩ <;>
  · show textStatus v = _ ↔ _
    simp only [textStatus]
    generalize hlv : lowerStr v = lv at *
    split_ifs with h1 h2 h3 <;>
      simp_all <;>
      first
        | (rcases h1 with h | h | h | h <;> simp_all)
        | (rcases h2 with h | h | h <;> simp_all)

/-- C7 (amended): doctor-to-column resolution returns exactly the first
header from column 2 that is nonempty and contains the queried name
case-insensitively (one direction only), and the doctor directory has no
influence on the result — the cross-check against directory matches is
dead code, so no preference is given to a directory-corresponding column
over a bare substring hit, and a header merely contained in the query
does not match. -/
theorem c7_first_substring_hit_wins (env : SheetsEnv) (q : String) :
    (get_doctor_column_index env q =
      (match env.scheduleWorksheet with
       | none => none
       | some grid => simpleColumnScan (stripStr (lowerStr q)) (grid.headerRow.drop 1) 2)) ∧
    (∀ ws : Option (List Doctor),
      get_doctor_column_index
          { doctorsWorksheet := ws, scheduleWorksheet := env.scheduleWorksheet } q =
        get_doctor_column_index env q) := by
  have key : ∀ env2 : SheetsEnv, get_doctor_column_index env2 q =
      (match env2.scheduleWorksheet with
       | none => none
       | some grid => simpleColumnScan (stripStr (lowerStr q)) (grid.headerRow.drop 1) 2) := by
    intro env2
    unfold get_doctor_column_index
    cases env2.scheduleWorksheet with
    | none => rfl
    | some grid => exact columnScan_eq_simple env2 q _ _ _
  refine ⟨key env, ?_⟩
  intro ws
  rw [key env, key { doctorsWorksheet := ws, scheduleWorksheet := env.scheduleWorksheet }]

/-- C7 counterexample, refuting both parts of the claim. Preference
part: the directory holds two matches for "Иванов", the column-2 header
"Иванова Анна Петровна" corresponds to neither of them while the
column-3 header "Иванов Иван" corresponds to one, so the claimed
preference resolves the query to column 3 — but the code returns
column 2, the first bare substring hit. Containment part: the header
"Иванов Иван" is contained in the query "Иванов Иван Иванович", so the
claimed bidirectional test returns its column — but the code, whose scan
tests only query-in-header, returns no column at all. -/
theorem c7_counterexample :
    find_doctor_by_name exSheetsC7 "Иванов" =
      [{ name := "Иванов Иван", specialty := "Терапевт" },
       { name := "Иванов Петр", specialty := "Хирург" }] ∧
    get_doctor_column_index exSheetsC7 "Иванов" = some 2 ∧
    headerMatchesDirectoryDoctor "Иванова Анна Петровна"
      { name := "Иванов Иван", specialty := "Терапевт" } = false ∧
    headerMatchesDirectoryDoctor "Иванова Анна Петровна"
      { name := "Иванов Петр", specialty := "Хирург" } = false ∧
    headerMatchesDirectoryDoctor "Иванов Иван"
      { name := "Иванов Иван", specialty := "Терапевт" } = true ∧
    get_doctor_column_index exSheetsC7b "Иванов Иван Иванович" = none ∧
    strHas (lowerStr "Иванов Иван Иванович") (lowerStr "Иванов Иван") = true := by
  refine ⟨rfl, rfl, by decide, by decide, by decide, rfl, by decide⟩

/-- C2 (amended): an absent specialty defaults `specialty_matches` to
`true` on every path; a doctor absent from the roster yields
`doctor_exists = false` with `specialty_matches` at its default `true` —
but `available_at_time` stays at its initialized default `false`, not
`true`; `available_at_time` defaults to `true` for an absent time only on
the paths that reach the time phase (doctor found, specialty check
passed). -/
theorem c2_absent_constraint_defaults (env : SheetsEnv) (name : String)
    (spec day : Option String) (ts : Option TimeSlot) :
    (optTruthy spec = false →
      (check_doctor_availability env name spec day ts).specialty_matches = true) ∧
    (find_doctor_by_name env name = [] →
      check_doctor_availability env name spec day ts =
        { doctor_exists := false, specialty_matches := true, available_at_time := false,
          doctor_info := none,
          message := "Врач \x27" ++ name ++ "\x27 не найден в справочнике" }) ∧
    (find_doctor_by_name env name ≠ [] → optTruthy spec = false → timeTruthy ts = false →
      (check_doctor_availability env name spec day ts).available_at_time = true) := by
  refine ⟨?_, ?_, ?_⟩
  · intro hs
    unfold check_doctor_availability
    cases hfind : find_doctor_by_name env name with
    | nil => rfl
    | cons d tl =>
      cases spec with
      | none => simp [availabilityTimePhase_specialty]
      | some s =>
        have hs0 : s = "" := by simpa [optTruthy] using hs
        subst hs0
        simp [availabilityTimePhase_specialty]
  · intro hfind
    unfold check_doctor_availability
    rw [hfind]
  · intro hne hs ht
    obtain ⟨d, tl, hfind⟩ : ∃ d tl, find_doctor_by_name env name = d :: tl := by
      cases hf : find_doctor_by_name env name with
      | nil => exact absurd hf hne
      | cons d tl => exact ⟨d, tl, rfl⟩
    unfold check_doctor_availability
    rw [hfind]
    cases spec with
    | none => simp [availabilityTimePhase_no_time, ht]
    | some s =>
      have hs0 : s = "" := by simpa [optTruthy] using hs
      subst hs0
      simp [availabilityTimePhase_no_time, ht]

/-- C2 witness: for the fixture roster, a found doctor with no requested
specialty and no requested time gets `available_at_time = true`. -/
theorem c2_witness :
    (check_doctor_availability exSheets "Иванов" none none none).available_at_time = true :=
  (c2_absent_constraint_defaults exSheets "Иванов" none none none).2.2 (by decide) rfl rfl

/-- C2 counterexample: for the roster lacking "Сидоров" and no requested
time, the verdict has `available_at_time = false`, not the claimed default
`true` (the early not-found return skips the defaulting branch). -/
theorem c2_counterexample :
    (check_doctor_availability exSheets "Сидоров" none none none).available_at_time = false ∧
    (check_doctor_availability exSheets "Сидоров" none none none).doctor_exists = false ∧
    (check_doctor_availability exSheets "Сидоров" none none none).specialty_matches = true :=
  ⟨rfl, rfl, rfl⟩

/-- C10: for an empty or whitespace-only query the bidirectional
containment test accepts every doctor, so `find_doctor_by_name` returns
the entire roster, and `check_doctor_availability` called directly with
such a name reports `doctor_exists = true` and matches the first doctor
in the roster instead of failing. -/
theorem c10_empty_query_returns_roster (env : SheetsEnv) (q : String)
    (hq : stripStr (lowerStr q) = "") (d : Doctor) (tl : List Doctor)
    (hr : get_all_doctors env = d :: tl) :
    find_doctor_by_name env q = get_all_doctors env ∧
    (check_doctor_availability env q none none none).doctor_exists = true ∧
    (check_doctor_availability env q none none none).doctor_info = some d := by
  have hfind : find_doctor_by_name env q = get_all_doctors env := by
    simp only [find_doctor_by_name]
    rw [hq]
    refine List.filter_eq_self.mpr ?_
    intro a _
    simp [strHas_empty_needle]
  have hfind2 : find_doctor_by_name env q = d :: tl := hfind.trans hr
  refine ⟨hfind, ?_, ?_⟩ <;>
  · unfold check_doctor_availability
    rw [hfind2]
    rfl

/-- C10 witness: the whitespace query `"  "` returns the whole fixture
roster and matches its first doctor. -/
theorem c10_witness :
    find_doctor_by_name exSheets "  " = get_all_doctors exSheets ∧
    (check_doctor_availability exSheets "  " none none none).doctor_exists = true ∧
    (check_doctor_availability exSheets "  " none none none).doctor_info =
      some { name := "Иванов Иван", specialty := "Терапевт" } :=
  c10_empty_query_returns_roster exSheets "  " (by decide)
    { name := "Иванов Иван", specialty := "Терапевт" } [] rfl

/-- C1 (amended): on every path of `_verify_doctor_availability`,
`verified` equals the conjunction of the three sub-signals read at their
defaults (`doctor_exists` false, `specialty_matches` true,
`available_at_time` false when absent); on the main path (backend present,
nonempty doctor name) the verdict carries all three sub-signal fields,
but the empty-doctor-name and unavailable-backend short-circuits return a
verdict from which the three sub-signal fields are absent. -/
theorem c1_verified_is_conjunction (venv : VerifierEnv) (appt : AppointmentInfo) :
    ((verify_doctor_availability venv appt).verified =
      ((verify_doctor_availability venv appt).doctor_exists.getD false &&
       (verify_doctor_availability venv appt).specialty_matches.getD true &&
       (verify_doctor_availability venv appt).available_at_time.getD false)) ∧
    (∀ env : SheetsEnv, venv.doctorsSchedule = some env →
      stripStr appt.doctor_name ≠ "" →
      (verify_doctor_availability venv appt).doctor_exists.isSome = true ∧
      (verify_doctor_availability venv appt).specialty_matches.isSome = true ∧
      (verify_doctor_availability venv appt).available_at_time.isSome = true) := by
  constructor
  · unfold verify_doctor_availability
    cases hds : venv.doctorsSchedule with
    | none => rfl
    | some env =>
      by_cases hn : stripStr appt.doctor_name = ""
      · simp only [if_pos hn]
        rfl
      · simp only [if_neg hn]
        obtain ⟨h1, h2, h3, h4, _, _, _⟩ :=
          attachClarification_frame venv (verdictCore env appt)
        rw [h1, h2, h3, h4]
        rfl
  · intro env hds hn
    unfold verify_doctor_availability
    rw [hds]
    simp only [if_neg hn]
    obtain ⟨_, h2, h3, h4, _, _, _⟩ :=
      attachClarification_frame venv (verdictCore env appt)
    rw [h2, h3, h4]
    exact ⟨rfl, rfl, rfl⟩

/-- C1 witness: on the main path with the fixture roster, all three
sub-signal fields are present. -/
theorem c1_witness :
    (verify_doctor_availability exVerifierNoLlm exApptIvanov).doctor_exists.isSome = true ∧
    (verify_doctor_availability exVerifierNoLlm exApptIvanov).specialty_matches.isSome = true ∧
    (verify_doctor_availability exVerifierNoLlm exApptIvanov).available_at_time.isSome = true :=
  (c1_verified_is_conjunction exVerifierNoLlm exApptIvanov).2 exSheets rfl (by decide)

/-- C1 counterexample: the empty-doctor-name short-circuit returns a
verdict that does not carry the three sub-signal fields, so the claim
that every path returns a fully-populated verdict fails. -/
theorem c1_counterexample :
    (verify_doctor_availability exVerifierNoLlm exApptEmptyName).doctor_exists = none ∧
    (verify_doctor_availability exVerifierNoLlm exApptEmptyName).specialty_matches = none ∧
    (verify_doctor_availability exVerifierNoLlm exApptEmptyName).available_at_time = none ∧
    (verify_doctor_availability exVerifierNoLlm exApptEmptyName).verified = false :=
  ⟨rfl, rfl, rfl, rfl⟩

/-- C8 (amended): the clarifier outcome never alters any deterministic
verdict field (verified, the three sub-signals, message, doctor_info,
doctors_context — removing the LLM changes none of them); when the
clarifier yields no response the `llm_clarification` field is omitted,
but on unparseable output the field is NOT omitted: it is populated with
a wrapper carrying the raw clarifier text as a recommendation. -/
theorem c8_clarifier_is_advisory (venv : VerifierEnv) (appt : AppointmentInfo) :
    ((verify_doctor_availability venv appt).verified =
        (verify_doctor_availability { venv with llm := false } appt).verified ∧
     (verify_doctor_availability venv appt).doctor_exists =
        (verify_doctor_availability { venv with llm := false } appt).doctor_exists ∧
     (verify_doctor_availability venv appt).specialty_matches =
        (verify_doctor_availability { venv with llm := false } appt).specialty_matches ∧
     (verify_doctor_availability venv appt).available_at_time =
        (verify_doctor_availability { venv with llm := false } appt).available_at_time ∧
     (verify_doctor_availability venv appt).message =
        (verify_doctor_availability { venv with llm := false } appt).message ∧
     (verify_doctor_availability venv appt).doctor_info =
        (verify_doctor_availability { venv with llm := false } appt).doctor_info ∧
     (verify_doctor_availability venv appt).doctors_context =
        (verify_doctor_availability { venv with llm := false } appt).doctors_context) ∧
    (venv.clarResponse = none →
      (verify_doctor_availability venv appt).llm_clarification = none) ∧
    (∀ (env : SheetsEnv) (clar : String),
      venv.doctorsSchedule = some env → stripStr appt.doctor_name ≠ "" →
      venv.clarResponse = some clar → clar ≠ "" → venv.parseClar clar = none →
      venv.llm = true → (verify_doctor_availability venv appt).verified = false →
      (verify_doctor_availability venv appt).llm_clarification =
        some (Clarification.recommendationOnly clar)) := by
  refine ⟨?_, ?_, ?_⟩
  · unfold verify_doctor_availability
    cases hds : venv.doctorsSchedule with
    | none => exact ⟨rfl, rfl, rfl, rfl, rfl, rfl, rfl⟩
    | some env =>
      by_cases hn : stripStr appt.doctor_name = ""
      · simp [hn]
      · simp only [if_neg hn]
        obtain ⟨a1, a2, a3, a4, a5, a6, a7⟩ :=
          attachClarification_frame venv (verdictCore env appt)
        obtain ⟨b1, b2, b3, b4, b5, b6, b7⟩ :=
          attachClarification_frame { venv with llm := false } (verdictCore env appt)
        exact ⟨a1.trans b1.symm, a2.trans b2.symm, a3.trans b3.symm, a4.trans b4.symm,
               a5.trans b5.symm, a6.trans b6.symm, a7.trans b7.symm⟩
  · intro hcr
    unfold verify_doctor_availability
    cases hds : venv.doctorsSchedule with
    | none => rfl
    | some env =>
      by_cases hn : stripStr appt.doctor_name = ""
      · simp only [if_pos hn]
      · simp only [if_neg hn]
        unfold attachClarification
        rw [hcr]
        split <;> rfl
  · intro env clar hds hn hcr hne hparse hllm hver
    unfold verify_doctor_availability at hver ⊢
    rw [hds] at hver ⊢
    simp only [if_neg hn] at hver ⊢
    rw [(attachClarification_frame venv (verdictCore env appt)).1] at hver
    unfold attachClarification
    rw [hver, hllm, hcr]
    simp only [Bool.not_false, Bool.and_self, if_true]
    rw [if_pos hne, hparse]

/-- C8 witness: with an unparseable clarifier response, the deterministic
message is the same as without an LLM, and the clarification carries the
raw text. -/
theorem c8_witness :
    (verify_doctor_availability exVerifierBadClar exApptSidorov).message =
      (verify_doctor_availability { exVerifierBadClar with llm := false }
        exApptSidorov).message ∧
    (verify_doctor_availability exVerifierBadClar exApptSidorov).llm_clarification =
      some (Clarification.recommendationOnly "мусор") :=
  ⟨(c8_clarifier_is_advisory exVerifierBadClar exApptSidorov).1.2.2.2.2.1,
   (c8_clarifier_is_advisory exVerifierBadClar exApptSidorov).2.2 exSheets "мусор"
     rfl (by decide) rfl (by decide) rfl rfl rfl⟩

/-- C8 counterexample: on unparseable clarifier output the
`llm_clarification` field is present (wrapping the raw text), not omitted
as the claim states. -/
theorem c8_counterexample :
    (verify_doctor_availability exVerifierBadClar exApptSidorov).llm_clarification ≠ none ∧
    (verify_doctor_availability exVerifierBadClar exApptSidorov).llm_clarification =
      some (Clarification.recommendationOnly "мусор") := by
  refine ⟨?_, rfl⟩
  intro h
  have he : (verify_doctor_availability exVerifierBadClar exApptSidorov).llm_clarification =
      some (Clarification.recommendationOnly "мусор") := rfl
  rw [he] at h
  exact Option.noConfusion h

/-- C9 (amended): with the roster reachable, the RAG context builder
lists at most the first 10 doctors of the filtered set, in roster order
(the output is exactly the rendering of `take 10` of the filtered list);
an empty filtered set yields the explicit "Врачи не найдены" sentinel,
distinguishable from a real listing, which always starts with
"Информация о врачах из базы данных:"; no ellipsis is appended on
truncation and the string length is not otherwise bounded. -/
theorem c9_rag_context (env : SheetsEnv) (dn s : Option String)
    (hw : env.doctorsWorksheet ≠ none) :
    (ragFilteredDoctors env dn s = [] →
      get_context_for_rag env dn s =
        "Врачи не найдены (фильтр: имя=\x27" ++ pyOptRepr dn ++
          "\x27, специальность=\x27" ++ pyOptRepr s ++ "\x27)" ∧
      strStarts "Врачи не найдены".data (get_context_for_rag env dn s).data = true) ∧
    (ragFilteredDoctors env dn s ≠ [] →
      get_context_for_rag env dn s =
        ragListing ((ragFilteredDoctors env dn s).take 10) ++ "\n" ∧
      ((ragFilteredDoctors env dn s).take 10).length ≤ 10 ∧
      strStarts "Информация о врачах из базы данных:".data
        (get_context_for_rag env dn s).data = true) := by
  obtain ⟨recs, hrecs⟩ : ∃ recs, env.doctorsWorksheet = some recs := by
    cases h : env.doctorsWorksheet with
    | none => exact absurd h hw
    | some r => exact ⟨r, rfl⟩
  constructor
  · intro hemp
    have hctx : get_context_for_rag env dn s =
        "Врачи не найдены (фильтр: имя=\x27" ++ pyOptRepr dn ++
          "\x27, специальность=\x27" ++ pyOptRepr s ++ "\x27)" := by
      unfold get_context_for_rag
      rw [hrecs]
      simp [hemp]
    refine ⟨hctx, ?_⟩
    rw [hctx]
    refine strStarts_of_data_append _ _
      ((" (фильтр: имя=\x27" ++ pyOptRepr dn ++ "\x27, специальность=\x27" ++
        pyOptRepr s ++ "\x27)").data) ?_
    have hsplit : ("Врачи не найдены (фильтр: имя=\x27" : String) =
        "Врачи не найдены" ++ " (фильтр: имя=\x27" := by decide
    rw [hsplit]
    simp [String.data_append, List.append_assoc]
  · intro hne
    have hctx : get_context_for_rag env dn s =
        ragListing ((ragFilteredDoctors env dn s).take 10) ++ "\n" := by
      unfold get_context_for_rag
      rw [hrecs]
      simp [hne]
    refine ⟨hctx, List.length_take_le 10 _, ?_⟩
    rw [hctx]
    obtain ⟨t, ht⟩ := ragListing_data ((ragFilteredDoctors env dn s).take 10)
      "Информация о врачах из базы данных:\n\n"
    refine strStarts_of_data_append _ _ ("\n\n".data ++ t ++ "\n".data) ?_
    have hsplit : ("Информация о врачах из базы данных:\n\n" : String) =
        "Информация о врачах из базы данных:" ++ "\n\n" := by decide
    rw [String.data_append]
    unfold ragListing
    rw [ht, hsplit]
    simp [String.data_append, List.append_assoc]

/-- C9 witness: for the 11-doctor fixture with no filter, the output is
exactly the rendering of the first 10 roster entries. -/
theorem c9_witness :
    get_context_for_rag exSheetsEleven none none =
      ragListing ((ragFilteredDoctors exSheetsEleven none none).take 10) ++ "\n" ∧
    ((ragFilteredDoctors exSheetsEleven none none).take 10).length ≤ 10 :=
  ⟨((c9_rag_context exSheetsEleven none none (by decide)).2 (by decide)).1,
   ((c9_rag_context exSheetsEleven none none (by decide)).2 (by decide)).2.1⟩

/-- C9 counterexample: with 11 doctors the 10th is listed and the 11th is
dropped, yet the output contains no ellipsis ("..." or "…") — the claimed
length-bounding truncation marker does not exist. -/
theorem c9_counterexample :
    strHas (get_context_for_rag exSheetsEleven none none) "Doc10" = true ∧
    strHas (get_context_for_rag exSheetsEleven none none) "Doc11" = false ∧
    strHas (get_context_for_rag exSheetsEleven none none) "..." = false ∧
    strHas (get_context_for_rag exSheetsEleven none none) "…" = false := by
  refine ⟨by decide, by decide, by decide, by decide⟩

end CallCenter
